import Mathlib

/-!
Shallow embedding of the go-zaya client (`client.go`): a typed client for a
link-shortening HTTP service.  The embedding models the client construction,
request building (auth / content-type / tracing headers), the sparse form
built by `CreateLink`, the URL construction of `GetLink`, and the
response-to-error normalisation performed by `checkForError`.

Conventions of the embedding:
* Go strings are Lean `String`, Go `int` is Lean `Int`, a Go `nil`-able
  value is an `Option`.
* The resty transport layer is embedded at the surface the client code
  observes: a `Response` carries the status code and line, the raw body
  (`none` models a nil byte slice) and the decoded structured error target;
  `Response.IsError` is resty v2's classification (status code above 399).
* Mutating builder methods on `*resty.Request` become functions
  `RestyRequest → RestyRequest`.
* `opentracing.GlobalTracer()` (process-wide state) is passed explicitly as
  a `Tracer` argument, and a tracer's `Inject` is abstracted to its action
  on the header collection: success returns the updated headers, failure
  returns `none`.
-/

/-- HTTP headers as ordered key-value pairs (the single-valued slice of
Go's `http.Header` that this client reads and writes). -/
abbrev Headers := List (String × String)

/-- Modelled from the spec: the closed error taxonomy of §7
(Network / Timeout / Parsing / Unknown).  The type itself lives in the
repository's models file, which is absent from src/. -/
inductive APIErrType where
  | network
  | timeout
  | parsing
  | unknown
deriving DecidableEq, Repr

/-- The nature of an underlying Go transport error, as far as the
classification heuristic of the spec inspects it: connection-level
failure, deadline/cancellation, decode failure, or anything else. -/
inductive ErrCause where
  | connection
  | deadline
  | decode
  | other
deriving DecidableEq, Repr

/-- A Go `error` value as observed by this client: its rendered text
(`err.Error()`) and the nature of the underlying failure. -/
structure GoError where
  text : String
  cause : ErrCause
deriving DecidableEq, Repr

/-- Modelled from the spec: `ParseAPIErrType`, the pure classification of an
error value into the §7 taxonomy ("derived purely from the underlying
transport/error value"); its definition lives in the repository's models
file, which is absent from src/.  A nil error classifies as Unknown. -/
def ParseAPIErrType (err : Option GoError) : APIErrType :=
  match err with
  | none => .unknown
  | some e =>
    match e.cause with
    | .connection => .network
    | .deadline => .timeout
    | .decode => .parsing
    | .other => .unknown

/-- Modelled from the spec: `HTTPErrorResponse`, "the structured error shape
a server may return in its body; has an emptiness predicate used to decide
whether to prefer it over the raw body" (§3).  Declared in the repository's
models file, which is absent from src/; one message field carries its
rendering, and the zero value is empty. -/
structure HTTPErrorResponse where
  message : String := ""
deriving DecidableEq, Repr

/-- The emptiness predicate of `HTTPErrorResponse` (spec §3): the zero
value is empty. -/
def HTTPErrorResponse.NotEmpty (e : HTTPErrorResponse) : Bool :=
  e.message != ""

/-- The `%s` rendering of an `HTTPErrorResponse`, used when composing the
message of an `APIError`. -/
def HTTPErrorResponse.render (e : HTTPErrorResponse) : String :=
  e.message

/-- Modelled from the spec: `APIError`, "the uniform error value: Code
(HTTP status, 0 when no HTTP status exists), Message, Type" (§3).
Declared in the repository's models file, which is absent from src/; the
field types follow their uses in `client.go`, and Go zero values are the
defaults. -/
structure APIError where
  code : Nat := 0
  message : String := ""
  errType : APIErrType := .unknown
deriving DecidableEq, Repr

/-- The slice of a `resty.Response` that `checkForError` observes:
status code (Go int, non-negative for real HTTP statuses), status line,
raw body (`none` models a nil byte slice, `some ""` a present but empty
one), and the `HTTPErrorResponse` registered via `SetError`, as filled in
by resty's decoding of an error body (the zero value when nothing was
decoded, matching `resp.Error()` on the always-registered target). -/
structure Response where
  statusCode : Nat
  status : String
  body : Option String := none
  errorBody : HTTPErrorResponse := {}
deriving DecidableEq, Repr

/-- resty v2 `Response.IsError`: the status code is strictly above 399. -/
def Response.IsError (r : Response) : Bool :=
  r.statusCode > 399

/-- Embedding of `checkForError` (client.go).  Decision order as in the
source: a non-nil transport error first (`errors.Wrap(err, errMessage)`
renders as `errMessage ++ ": " ++ err.Error()`), then a nil response, then
a resty error-classified response with the detail priority (structured
error body when non-empty, else the raw body whenever present, else the
status line alone), else success (`nil`).  In the source the type
assertion `resp.Error().(*HTTPErrorResponse)` always succeeds because
`GetRequest` registers exactly that target, so only `NotEmpty` decides. -/
def checkForError (resp : Option Response) (err : Option GoError) (errMessage : String) :
    Option APIError :=
  match err with
  | some e =>
    some { code := 0, message := errMessage ++ ": " ++ e.text, errType := ParseAPIErrType (some e) }
  | none =>
    match resp with
    | none => some { message := "empty response", errType := ParseAPIErrType none }
    | some r =>
      if r.IsError then
        let msg :=
          if r.errorBody.NotEmpty then
            r.status ++ ": " ++ r.errorBody.render
          else
            match r.body with
            | some bodyMsg => r.status ++ ": " ++ bodyMsg
            | none => r.status
        some { code := r.statusCode, message := msg, errType := ParseAPIErrType none }
      else
        none

/-- A span context of the opentracing API, abstracted to an identifier
(the client only passes it through to `Tracer.Inject`). -/
structure SpanContext where
  id : Nat
deriving DecidableEq, Repr

/-- An opentracing span as read from the call context; the client only
uses `span.Context()`. -/
structure Span where
  context : SpanContext
deriving DecidableEq, Repr

/-- An opentracing tracer, abstracted to its `Inject` action on the HTTP
header carrier: given a span context and the current headers, it either
returns the headers with the tracing entries written (success) or fails
(`none`), in which case client.go keeps the request as it was. -/
def Tracer := SpanContext → Headers → Option Headers

/-- What `ctx.Value(tracerContextKey)` followed by the type assertion
`.(opentracing.Tracer)` can yield in `injectTracingHeaders`: no value or a
value of the wrong type (`absent`, assertion not ok), a typed nil tracer
(`nilTracer`), or a usable tracer (`valid`). -/
inductive CtxTracer where
  | absent
  | nilTracer
  | valid (t : Tracer)

/-- The slice of a Go `context.Context` this client reads: the active
span, if any, and the tracer stored under `tracerContextKey` (the key
itself is declared in the repository's models file, absent from src/). -/
structure Ctx where
  span : Option Span := none
  tracerVal : CtxTracer := .absent

/-- The slice of a `resty.Request` the client builds: the bound context,
the header collection, whether `SetError` / `SetResult` registered a
decoding target, and the form data.  `SetAuthToken` is recorded through
the `Authorization` header resty derives from it (`"Bearer <token>"`). -/
structure RestyRequest where
  context : Option Ctx := none
  headers : Headers := []
  errorRegistered : Bool := false
  resultRegistered : Bool := false
  formData : List (String × String) := []

/-- resty `Request.SetContext`. -/
def RestyRequest.SetContext (req : RestyRequest) (ctx : Ctx) : RestyRequest :=
  { req with context := some ctx }

/-- resty `Request.SetError`: registers the structured error decoding
target (an `HTTPErrorResponse` in `GetRequest`). -/
def RestyRequest.SetError (req : RestyRequest) : RestyRequest :=
  { req with errorRegistered := true }

/-- Go `http.Header.Set` on the single-valued header list: replaces any
existing entries for the key. -/
def setHeaderList (h : Headers) (k v : String) : Headers :=
  h.filter (fun p => p.1 != k) ++ [(k, v)]

/-- resty `Request.SetHeader`. -/
def RestyRequest.SetHeader (req : RestyRequest) (k v : String) : RestyRequest :=
  { req with headers := setHeaderList req.headers k v }

/-- resty `Request.SetAuthToken`: resty sends it as
`Authorization: Bearer <token>` (default auth scheme). -/
def RestyRequest.SetAuthToken (req : RestyRequest) (token : String) : RestyRequest :=
  req.SetHeader "Authorization" ("Bearer " ++ token)

/-- resty `Request.SetFormData`. -/
def RestyRequest.SetFormData (req : RestyRequest) (form : List (String × String)) : RestyRequest :=
  { req with formData := form }

/-- The tracer chosen by `injectTracingHeaders` (client.go): the tracer
from the context when the assertion succeeded on a non-nil value,
otherwise the process-wide default (`opentracing.GlobalTracer()`), passed
here explicitly as `globalTracer`. -/
def effectiveTracer (ctx : Ctx) (globalTracer : Tracer) : Tracer :=
  match ctx.tracerVal with
  | .valid t => t
  | _ => globalTracer

/-- The call `tracer.Inject(span.Context(), HTTPHeaders, carrier(req.Header))`
followed by client.go's error handling: on failure the request is
returned as it was (`if err != nil { return req }`). -/
def injectWith (t : Tracer) (sc : SpanContext) (req : RestyRequest) : RestyRequest :=
  match t sc req.headers with
  | some h => { req with headers := h }
  | none => req

/-- Embedding of `injectTracingHeaders` (client.go): no span in the
context means the request is returned untouched; otherwise the effective
tracer injects into the header carrier, best effort. -/
def injectTracingHeaders (globalTracer : Tracer) (ctx : Ctx) (req : RestyRequest) :
    RestyRequest :=
  match ctx.span with
  | none => req
  | some span => injectWith (effectiveTracer ctx globalTracer) span.context req

/-- The slice of a `resty.Client` the client code touches: the timeout
(Go `time.Duration`, nanoseconds) plus a representative remainder of its
configuration, to state that `SetRestyClient` keeps the supplied handle. -/
structure RestyClient where
  timeoutNs : Int := 0
  baseURL : String := ""
deriving DecidableEq, Repr

/-- Go `resty.New()`: a fresh client with no timeout configured. -/
def restyNew : RestyClient := {}

/-- The endpoint configuration of `GoZaya.Config`. -/
structure GoZayaConfig where
  CreateLinkEndpoint : String := ""
  GetLinkEndpoint : String := ""
deriving DecidableEq, Repr

/-- Embedding of the `GoZaya` client struct (client.go). -/
structure GoZaya where
  basePath : String
  restyClient : RestyClient
  Config : GoZayaConfig
deriving DecidableEq, Repr

/-- The constant `urlSeparator` of client.go. -/
def urlSeparator : String := "/"

/-- The helper `makeURL` of client.go: `strings.Join(path, urlSeparator)`. -/
def makeURL (path : List String) : String :=
  String.intercalate urlSeparator path

/-- Go `strings.TrimRight(s, cutset)`: remove the trailing characters of
`s` that appear in `cutset`. -/
def trimRight (s : String) (cutset : String) : String :=
  ⟨(s.data.reverse.dropWhile (fun c => cutset.data.contains c)).reverse⟩

/-- Whether a string ends with the path separator (its last character is
the slash). -/
def endsInSeparator (s : String) : Bool :=
  s.data.getLast? == some '/'

/-- Embedding of `NewClient` (client.go): trailing separators stripped
from the base path, a fresh transport handle, both endpoints defaulted to
`makeURL ["api", "v1", "links"]`, then the option functions applied in
order. -/
def NewClient (basePath : String) (options : List (GoZaya → GoZaya)) : GoZaya :=
  let c : GoZaya :=
    { basePath := trimRight basePath urlSeparator
      restyClient := restyNew
      Config :=
        { CreateLinkEndpoint := makeURL ["api", "v1", "links"]
          GetLinkEndpoint := makeURL ["api", "v1", "links"] } }
  options.foldl (fun c option => option c) c

/-- Embedding of `SetRestyClient` (client.go): store the supplied handle
and force `SetTimeout(30 * time.Second)` on it (30e9 nanoseconds). -/
def SetRestyClient (g : GoZaya) (rc : RestyClient) : GoZaya :=
  { g with restyClient := { rc with timeoutNs := 30 * 1000000000 } }

/-- Embedding of `GoZaya.GetRequest` (client.go): a fresh request from the
resty client, bound to the call context, with an `HTTPErrorResponse`
registered via `SetError`, then tracing-header injection. -/
def GoZaya.GetRequest (_g : GoZaya) (globalTracer : Tracer) (ctx : Ctx) : RestyRequest :=
  injectTracingHeaders globalTracer ctx ((({} : RestyRequest).SetContext ctx).SetError)

/-- Embedding of `GoZaya.GetRequestWithBearerAuthNoCache` (client.go). -/
def GoZaya.GetRequestWithBearerAuthNoCache (g : GoZaya) (globalTracer : Tracer) (ctx : Ctx)
    (token : String) : RestyRequest :=
  (((g.GetRequest globalTracer ctx).SetAuthToken token).SetHeader
    "Content-Type" "application/json").SetHeader "Cache-Control" "no-cache"

/-- Embedding of `GoZaya.GetRequestWithBearerAuth` (client.go). -/
def GoZaya.GetRequestWithBearerAuth (g : GoZaya) (globalTracer : Tracer) (ctx : Ctx)
    (token : String) : RestyRequest :=
  ((g.GetRequest globalTracer ctx).SetAuthToken token).SetHeader
    "Content-Type" "application/json"

/-- Embedding of `GoZaya.GetRequestFormData` (client.go). -/
def GoZaya.GetRequestFormData (g : GoZaya) (globalTracer : Tracer) (ctx : Ctx)
    (token : String) : RestyRequest :=
  ((g.GetRequest globalTracer ctx).SetAuthToken token).SetHeader
    "Content-Type" "application/x-www-form-urlencoded"

/-- Struct `GenerateLinkRequest`, the input DTO of `CreateLink`.  Declared in the
repository's models file, absent from src/; the field names and types
follow their uses in `CreateLink` (client.go) and the spec's field list
(§3); Go zero values are the defaults. -/
structure GenerateLinkRequest where
  Url : String := ""
  Alias : String := ""
  Password : String := ""
  Disable : Int := 0
  Public : Int := 0
  Description : String := ""
  ExpirationDate : String := ""
  ExpirationTime : String := ""
  ExpirationClicks : Int := 0
  Domain : Int := 0
  ExpirationUrl : String := ""
deriving DecidableEq, Repr

/-- The sparse form `CreateLink` builds: each field contributes its key
only when non-empty (strings) / non-zero (numerics), numeric fields
rendered by `strconv.Itoa` (= `toString` on `Int`); conditionals in source
order.  The source fills a Go map whose keys are pairwise distinct, so
this ordered list carries the same key-value function. -/
def createLinkForm (link : GenerateLinkRequest) : List (String × String) :=
  (if link.Url != "" then [("url", link.Url)] else []) ++
  (if link.Alias != "" then [("alias", link.Alias)] else []) ++
  (if link.Password != "" then [("password", link.Password)] else []) ++
  (if link.Disable != 0 then [("disable", toString link.Disable)] else []) ++
  (if link.Public != 0 then [("public", toString link.Public)] else []) ++
  (if link.Description != "" then [("description", link.Description)] else []) ++
  (if link.ExpirationDate != "" then [("expiration_date", link.ExpirationDate)] else []) ++
  (if link.ExpirationTime != "" then [("expiration_time", link.ExpirationTime)] else []) ++
  (if link.ExpirationClicks != 0 then [("expiration_clicks", toString link.ExpirationClicks)] else []) ++
  (if link.Domain != 0 then [("domain", toString link.Domain)] else []) ++
  (if link.ExpirationUrl != "" then [("expiration_url", link.ExpirationUrl)] else [])

/-- Modelled from the spec: `ResponseModel` is the "opaque decoded success
payload" (§3); declared in the repository's models file, absent from src/.
One opaque field stands for its contents; the default is Go's zero value,
as produced by `var result ResponseModel`. -/
structure ResponseModel where
  payload : String := ""
deriving DecidableEq, Repr

/-- Go's zero value of `ResponseModel`. -/
def ResponseModel.zero : ResponseModel := {}

/-- An HTTP call as handed to the transport: the method and target URL of
the resty `Post`/`Get`, together with the request that was built. -/
structure HttpCall where
  method : String
  url : String
  request : RestyRequest

/-- The transport: executing a call yields a response-or-nil and an
error-or-nil (the two values a resty `Post`/`Get` returns). -/
def Transport := HttpCall → Option Response × Option GoError

/-- The POST `CreateLink` issues: the form-data request, sent to
`g.basePath + "/" + g.Config.CreateLinkEndpoint`. -/
def GoZaya.createLinkCall (g : GoZaya) (globalTracer : Tracer) (ctx : Ctx) (token : String)
    (link : GenerateLinkRequest) : HttpCall :=
  { method := "POST"
    url := g.basePath ++ "/" ++ g.Config.CreateLinkEndpoint
    request := (g.GetRequestFormData globalTracer ctx token).SetFormData (createLinkForm link) }

/-- Embedding of `CreateLink` (client.go): build the form request, POST
it, classify the outcome with `checkForError`; on success return the
still zero-valued `result` (pair of Go's `(*ResponseModel, error)`). -/
def GoZaya.CreateLink (g : GoZaya) (globalTracer : Tracer) (exec : Transport) (ctx : Ctx)
    (token : String) (link : GenerateLinkRequest) :
    Option ResponseModel × Option APIError :=
  let result : ResponseModel := {}
  let out := exec (g.createLinkCall globalTracer ctx token link)
  match checkForError out.1 out.2 "failed to create link" with
  | some e => (none, some e)
  | none => (some result, none)

/-- The GET `GetLink` issues: the bearer+no-cache request, sent to
`g.basePath + "/" + g.Config.GetLinkEndpoint + "/" + id`. -/
def GoZaya.getLinkCall (g : GoZaya) (globalTracer : Tracer) (ctx : Ctx) (token : String)
    (id : String) : HttpCall :=
  { method := "GET"
    url := g.basePath ++ "/" ++ g.Config.GetLinkEndpoint ++ "/" ++ id
    request := g.GetRequestWithBearerAuthNoCache globalTracer ctx token }

/-- Embedding of `GetLink` (client.go). -/
def GoZaya.GetLink (g : GoZaya) (globalTracer : Tracer) (exec : Transport) (ctx : Ctx)
    (token : String) (id : String) :
    Option ResponseModel × Option APIError :=
  let result : ResponseModel := {}
  let out := exec (g.getLinkCall globalTracer ctx token id)
  match checkForError out.1 out.2 "failed to get link" with
  | some e => (none, some e)
  | none => (some result, none)

/-- C2: with a non-nil transport error, `checkForError` answers first,
whether or not a response is also present: Code 0 and the context message
wrapped around the error text. -/
theorem checkForError_transport_error (resp : Option Response) (e : GoError) (m : String) :
    checkForError resp (some e) m =
      some { code := 0, message := m ++ ": " ++ e.text, errType := ParseAPIErrType (some e) } :=
  rfl

/-- C3: a nil response with a nil transport error yields Code 0 and the
message "empty response". -/
theorem checkForError_empty_response (m : String) :
    checkForError none none m =
      some { code := 0, message := "empty response", errType := ParseAPIErrType none } :=
  rfl

/-- C1 counterexample: the claim quantifies over every non-2xx response and
demands a non-empty detail be present before it is appended, but the code
follows resty's `IsError` (only statuses above 399) and appends the raw
body whenever the byte slice is non-nil, even when it is empty.  A 304
response returns no error at all, and a 404 with a present-but-empty body
gets the status line with a dangling ": ". -/
theorem checkForError_non2xx_counterexample :
    checkForError (some { statusCode := 304, status := "304 Not Modified", body := some "stale" })
        none "failed to get link" = none ∧
    checkForError (some { statusCode := 404, status := "404 Not Found", body := some "" })
        none "failed to get link" =
      some { code := 404, message := "404 Not Found: ", errType := .unknown } := by
  exact ⟨rfl, rfl⟩


/-- C1 (amended): with a nil transport error, a response that resty
classifies as an error (status code above 399) yields an `APIError` whose
Code is the status code and whose Message is "<status line>: <detail>",
the detail being the structured error body when it is non-empty, else the
raw body text whenever a body is present (even an empty one), else the
status line standing alone; any response with status code at most 399
(including every non-2xx status below 400) yields no error. -/
theorem checkForError_http_error (r : Response) (m : String) :
    (399 < r.statusCode →
      ∃ e : APIError, checkForError (some r) none m = some e ∧
        e.code = r.statusCode ∧
        e.errType = ParseAPIErrType none ∧
        (r.errorBody.NotEmpty = true → e.message = r.status ++ ": " ++ r.errorBody.render) ∧
        (r.errorBody.NotEmpty = false → ∀ b, r.body = some b →
          e.message = r.status ++ ": " ++ b) ∧
        (r.errorBody.NotEmpty = false → r.body = none → e.message = r.status)) ∧
    (r.statusCode ≤ 399 → checkForError (some r) none m = none) := by
  constructor
  · intro h
    have hIsErr : r.IsError = true := by
      simp only [Response.IsError, gt_iff_lt, decide_eq_true_eq]
      omega
    cases hne : r.errorBody.NotEmpty with
    | true =>
      refine ⟨{ code := r.statusCode, message := r.status ++ ": " ++ r.errorBody.render, errType := ParseAPIErrType none }, ?_, rfl, rfl, ?_, ?_, ?_⟩
      · simp [checkForError, hIsErr, hne]
      · intro _
        rfl
      · intro hcontra
        cases hcontra
      · intro hcontra
        cases hcontra
    | false =>
      cases hb : r.body with
      | some b0 =>
        refine ⟨{ code := r.statusCode, message := r.status ++ ": " ++ b0, errType := ParseAPIErrType none }, ?_, rfl, rfl, ?_, ?_, ?_⟩
        · simp [checkForError, hIsErr, hne, hb]
        · intro hcontra
          cases hcontra
        · intro _ b hb'
          cases hb'
          rfl
        · intro _ hb'
          cases hb'
      | none =>
        refine ⟨{ code := r.statusCode, message := r.status, errType := ParseAPIErrType none }, ?_, rfl, rfl, ?_, ?_, ?_⟩
        · simp [checkForError, hIsErr, hne, hb]
        · intro hcontra
          cases hcontra
        · intro _ b hb'
          cases hb'
        · intro _ _
          rfl
  · intro h
    have hIsErr : r.IsError = false := by
      simp only [Response.IsError, gt_iff_lt, decide_eq_false_iff_not, not_lt]
      omega
    simp [checkForError, hIsErr]

/-- C1 witness: the amended statement evaluated on concrete responses — a
422 with a decoded structured body, a 404 with a raw body only, a 500 with
no body, and a 304 (not an error for resty). -/
theorem checkForError_http_error_witness :
    checkForError (some { statusCode := 422, status := "422 Unprocessable Entity", body := some "raw", errorBody := { message := "invalid url" } }) none "failed to create link" = some { code := 422, message := "422 Unprocessable Entity: invalid url", errType := .unknown } ∧
    checkForError (some { statusCode := 404, status := "404 Not Found", body := some "missing" }) none "failed to get link" = some { code := 404, message := "404 Not Found: missing", errType := .unknown } ∧
    checkForError (some { statusCode := 500, status := "500 Internal Server Error" }) none "failed to get link" = some { code := 500, message := "500 Internal Server Error", errType := .unknown } ∧
    checkForError (some { statusCode := 304, status := "304 Not Modified" }) none "failed to get link" = none := by
  refine ⟨?_, ?_, ?_, ?_⟩
  · obtain ⟨e, he, hc, ht, hm, -, -⟩ :=
      (checkForError_http_error { statusCode := 422, status := "422 Unprocessable Entity", body := some "raw", errorBody := { message := "invalid url" } } "failed to create link").1 (by decide)
    have hmsg := hm (by decide)
    rw [he]
    cases e
    simp_all [ParseAPIErrType, HTTPErrorResponse.render]
  · obtain ⟨e, he, hc, ht, -, hm, -⟩ :=
      (checkForError_http_error { statusCode := 404, status := "404 Not Found", body := some "missing" } "failed to get link").1 (by decide)
    have hmsg := hm (by decide) "missing" rfl
    rw [he]
    cases e
    simp_all [ParseAPIErrType]
  · obtain ⟨e, he, hc, ht, -, -, hm⟩ :=
      (checkForError_http_error { statusCode := 500, status := "500 Internal Server Error" } "failed to get link").1 (by decide)
    have hmsg := hm (by decide) rfl
    rw [he]
    cases e
    simp_all [ParseAPIErrType]
  · exact (checkForError_http_error { statusCode := 304, status := "304 Not Modified" } "failed to get link").2 (by decide)

/-- Helper: `List.lookup` through a conditional singleton segment. -/
theorem lookup_cond (k k' v : String) (c : Bool) :
    List.lookup k (if c then [(k', v)] else []) = if c && (k == k') then some v else none := by
  cases c <;> cases h : k == k' <;> simp [List.lookup, h]

/-- C4: a field enters the `CreateLink` form exactly when it is non-empty
(strings) or non-zero (numerics), numeric fields as decimal strings; a
request with only `Url` set yields the single key "url", and a request
with all eleven fields set yields all eleven keys. -/
theorem createLink_form_fields (link : GenerateLinkRequest) :
    (List.lookup "url" (createLinkForm link) =
      (if link.Url != "" then some link.Url else none)) ∧
    (List.lookup "alias" (createLinkForm link) =
      (if link.Alias != "" then some link.Alias else none)) ∧
    (List.lookup "password" (createLinkForm link) =
      (if link.Password != "" then some link.Password else none)) ∧
    (List.lookup "disable" (createLinkForm link) =
      (if link.Disable != 0 then some (toString link.Disable) else none)) ∧
    (List.lookup "public" (createLinkForm link) =
      (if link.Public != 0 then some (toString link.Public) else none)) ∧
    (List.lookup "description" (createLinkForm link) =
      (if link.Description != "" then some link.Description else none)) ∧
    (List.lookup "expiration_date" (createLinkForm link) =
      (if link.ExpirationDate != "" then some link.ExpirationDate else none)) ∧
    (List.lookup "expiration_time" (createLinkForm link) =
      (if link.ExpirationTime != "" then some link.ExpirationTime else none)) ∧
    (List.lookup "expiration_clicks" (createLinkForm link) =
      (if link.ExpirationClicks != 0 then some (toString link.ExpirationClicks) else none)) ∧
    (List.lookup "domain" (createLinkForm link) =
      (if link.Domain != 0 then some (toString link.Domain) else none)) ∧
    (List.lookup "expiration_url" (createLinkForm link) =
      (if link.ExpirationUrl != "" then some link.ExpirationUrl else none)) ∧
    ((createLinkForm { Url := "https://example.com" }).map Prod.fst = ["url"]) ∧
    ((createLinkForm { Url := "https://example.com", Alias := "a", Password := "p", Disable := 1, Public := 1, Description := "d", ExpirationDate := "2026-01-01", ExpirationTime := "10:00", ExpirationClicks := 5, Domain := 2, ExpirationUrl := "https://e.com" }).map Prod.fst =
      ["url", "alias", "password", "disable", "public", "description", "expiration_date", "expiration_time", "expiration_clicks", "domain", "expiration_url"]) := by
  refine ⟨?_, ?_, ?_, ?_, ?_, ?_, ?_, ?_, ?_, ?_, ?_, by decide, by decide⟩
  all_goals
    simp only [createLinkForm, List.lookup_append, lookup_cond]
    simp

/-- Helper: the first element surviving `dropWhile p` falsifies `p`. -/
theorem head_dropWhile_false {α : Type} (p : α → Bool) (l : List α) (a : α)
    (h : (l.dropWhile p).head? = some a) : p a = false := by
  induction l with
  | nil => simp [List.dropWhile] at h
  | cons x xs ih =>
    rw [List.dropWhile] at h
    cases hp : p x with
    | true => rw [hp] at h; exact ih h
    | false => rw [hp] at h; simp at h; subst h; exact hp

/-- Helper: `trimRight` with the slash cutset leaves no trailing slash. -/
theorem trimRight_no_trailing_separator (s : String) :
    endsInSeparator (trimRight s urlSeparator) = false := by
  have hd : (trimRight s urlSeparator).data
      = (s.data.reverse.dropWhile (fun c => urlSeparator.data.contains c)).reverse := rfl
  rw [endsInSeparator, hd, List.getLast?_reverse]
  cases hh : (s.data.reverse.dropWhile (fun c => urlSeparator.data.contains c)).head? with
  | none => rfl
  | some a =>
    have hp := head_dropWhile_false _ _ _ hh
    have ha : (a == '/') = false := by
      revert hp
      simp [urlSeparator, List.contains]
    simp [ha]

/-- C5: `NewClient` strips all trailing path separators from the base
path (so "https://zaya.io/" normalizes to "https://zaya.io" and the
stored base path never ends in the separator), defaults both endpoints to
"api/v1/links", and applies the option functions in order after the
defaults are set. -/
theorem newClient_normalizes_and_defaults (bp : String) (opts : List (GoZaya → GoZaya)) :
    (NewClient bp []).basePath = trimRight bp urlSeparator ∧
    endsInSeparator (NewClient bp []).basePath = false ∧
    (NewClient bp []).Config.CreateLinkEndpoint = makeURL ["api", "v1", "links"] ∧
    (NewClient bp []).Config.GetLinkEndpoint = makeURL ["api", "v1", "links"] ∧
    makeURL ["api", "v1", "links"] = "api/v1/links" ∧
    trimRight "https://zaya.io/" urlSeparator = "https://zaya.io" ∧
    NewClient bp opts = opts.foldl (fun c option => option c) (NewClient bp []) := by
  refine ⟨rfl, trimRight_no_trailing_separator bp, rfl, rfl, rfl, by decide, rfl⟩

/-- C6: `SetRestyClient` stores the supplied transport handle unchanged
except that its timeout is forced to exactly 30 seconds, whatever timeout
it carried before. -/
theorem setRestyClient_forces_timeout (g : GoZaya) (rc : RestyClient) :
    (SetRestyClient g rc).restyClient = { rc with timeoutNs := 30 * 1000000000 } ∧
    (SetRestyClient g rc).restyClient.timeoutNs = 30 * 1000000000 ∧
    (SetRestyClient g rc).restyClient.baseURL = rc.baseURL ∧
    (SetRestyClient g rc).basePath = g.basePath ∧
    (SetRestyClient g rc).Config = g.Config := by
  exact ⟨rfl, rfl, rfl, rfl, rfl⟩

/-- Helper: looking up a key in a list filtered of exactly that key gives
nothing. -/
theorem lookup_filter_self (k : String) (h : Headers) :
    List.lookup k (h.filter (fun p => p.1 != k)) = none := by
  induction h with
  | nil => rfl
  | cons p t ih =>
    obtain ⟨a, b⟩ := p
    cases hak : a == k with
    | true =>
      simp only [List.filter, bne, hak, Bool.not_true]
      exact ih
    | false =>
      have hka : (k == a) = false := by
        simp only [beq_eq_false_iff_ne] at hak ⊢
        exact fun e => hak e.symm
      simp only [List.filter, bne, hak, Bool.not_false, List.lookup, hka]
      exact ih

/-- Helper: filtering out a different key does not change a lookup. -/
theorem lookup_filter_other (k k' : String) (hne : (k == k') = false) (h : Headers) :
    List.lookup k (h.filter (fun p => p.1 != k')) = List.lookup k h := by
  induction h with
  | nil => rfl
  | cons p t ih =>
    obtain ⟨a, b⟩ := p
    cases hak : a == k' with
    | true =>
      have ha : a = k' := by simpa using hak
      have hka : (k == a) = false := by rw [ha]; exact hne
      simp only [List.filter, bne, hak, Bool.not_true, List.lookup, hka]
      exact ih
    | false =>
      simp only [List.filter, bne, hak, Bool.not_false, List.lookup]
      cases hka : k == a with
      | true => rfl
      | false => exact ih

/-- Helper: after `setHeaderList h k v`, looking up `k` yields `v`. -/
theorem lookup_setHeader_same (k v : String) (h : Headers) :
    List.lookup k (setHeaderList h k v) = some v := by
  simp [setHeaderList, List.lookup_append, lookup_filter_self, List.lookup]

/-- Helper: `setHeaderList` on a different key does not change a lookup. -/
theorem lookup_setHeader_other (k k' v : String) (hne : (k == k') = false) (h : Headers) :
    List.lookup k (setHeaderList h k' v) = List.lookup k h := by
  simp [setHeaderList, List.lookup_append, lookup_filter_other k k' hne, List.lookup, hne]

/-- C7: `GetLink` issues a GET whose target is
`basePath ++ "/api/v1/links/" ++ id` (for the default endpoint
configuration `NewClient` installs) and whose request carries the
`Authorization: Bearer <token>`, `Cache-Control: no-cache` and
`Content-Type: application/json` headers, whatever tracing injection did
before them. -/
theorem getLink_request_shape (g : GoZaya) (gt : Tracer) (ctx : Ctx) (token id : String)
    (h : g.Config.GetLinkEndpoint = makeURL ["api", "v1", "links"]) :
    (g.getLinkCall gt ctx token id).method = "GET" ∧
    (g.getLinkCall gt ctx token id).url = g.basePath ++ "/api/v1/links/" ++ id ∧
    List.lookup "Authorization" (g.getLinkCall gt ctx token id).request.headers =
      some ("Bearer " ++ token) ∧
    List.lookup "Cache-Control" (g.getLinkCall gt ctx token id).request.headers =
      some "no-cache" ∧
    List.lookup "Content-Type" (g.getLinkCall gt ctx token id).request.headers =
      some "application/json" := by
  refine ⟨rfl, ?_, ?_, ?_, ?_⟩
  · show g.basePath ++ "/" ++ g.Config.GetLinkEndpoint ++ "/" ++ id = _
    rw [h]
    have hm : makeURL ["api", "v1", "links"] = "api/v1/links" := rfl
    rw [hm]
    simp [String.append_assoc]
  · show List.lookup "Authorization"
        (setHeaderList (setHeaderList (setHeaderList _ "Authorization" ("Bearer " ++ token))
          "Content-Type" "application/json") "Cache-Control" "no-cache") = _
    rw [lookup_setHeader_other _ _ _ (by decide), lookup_setHeader_other _ _ _ (by decide),
      lookup_setHeader_same]
  · show List.lookup "Cache-Control"
        (setHeaderList (setHeaderList (setHeaderList _ "Authorization" ("Bearer " ++ token))
          "Content-Type" "application/json") "Cache-Control" "no-cache") = _
    rw [lookup_setHeader_same]
  · show List.lookup "Content-Type"
        (setHeaderList (setHeaderList (setHeaderList _ "Authorization" ("Bearer " ++ token))
          "Content-Type" "application/json") "Cache-Control" "no-cache") = _
    rw [lookup_setHeader_other _ _ _ (by decide), lookup_setHeader_same]

/-- C7 witness: the shape evaluated on a concretely constructed client,
id "abc123" and base path "https://zaya.io". -/
theorem getLink_request_shape_witness :
    ((NewClient "https://zaya.io" []).getLinkCall (fun _ _ => none) {} "tok" "abc123").url =
      "https://zaya.io/api/v1/links/abc123" ∧
    List.lookup "Authorization"
      ((NewClient "https://zaya.io" []).getLinkCall (fun _ _ => none) {} "tok" "abc123").request.headers =
      some "Bearer tok" ∧
    List.lookup "Cache-Control"
      ((NewClient "https://zaya.io" []).getLinkCall (fun _ _ => none) {} "tok" "abc123").request.headers =
      some "no-cache" := by
  have H := getLink_request_shape (NewClient "https://zaya.io" []) (fun _ _ => none) {}
    "tok" "abc123" rfl
  refine ⟨H.2.1.trans (by decide), H.2.2.1.trans (by decide), H.2.2.2.1⟩

/-- C8: both operations return exactly one of a result and an error —
`isSome` of the result equals `isNone` of the error on every outcome —
and a 2xx response with no transport error yields the populated result
with a nil error. -/
theorem operations_result_xor_error (g : GoZaya) (gt : Tracer) (exec : Transport) (ctx : Ctx)
    (token id : String) (link : GenerateLinkRequest) :
    ((g.GetLink gt exec ctx token id).1.isSome =
      (g.GetLink gt exec ctx token id).2.isNone) ∧
    ((g.CreateLink gt exec ctx token link).1.isSome =
      (g.CreateLink gt exec ctx token link).2.isNone) ∧
    (∀ r : Response, exec (g.getLinkCall gt ctx token id) = (some r, none) →
      200 ≤ r.statusCode → r.statusCode ≤ 299 →
      g.GetLink gt exec ctx token id = (some ResponseModel.zero, none)) ∧
    (∀ r : Response, exec (g.createLinkCall gt ctx token link) = (some r, none) →
      200 ≤ r.statusCode → r.statusCode ≤ 299 →
      g.CreateLink gt exec ctx token link = (some ResponseModel.zero, none)) := by
  refine ⟨?_, ?_, ?_, ?_⟩
  · cases hc : checkForError (exec (g.getLinkCall gt ctx token id)).1
        (exec (g.getLinkCall gt ctx token id)).2 "failed to get link" with
    | some e => simp [GoZaya.GetLink, hc]
    | none => simp [GoZaya.GetLink, hc]
  · cases hc : checkForError (exec (g.createLinkCall gt ctx token link)).1
        (exec (g.createLinkCall gt ctx token link)).2 "failed to create link" with
    | some e => simp [GoZaya.CreateLink, hc]
    | none => simp [GoZaya.CreateLink, hc]
  · intro r hexec h1 h2
    have hIsErr : r.IsError = false := by
      simp only [Response.IsError, gt_iff_lt, decide_eq_false_iff_not, not_lt]
      omega
    simp [GoZaya.GetLink, hexec, checkForError, hIsErr, ResponseModel.zero]
  · intro r hexec h1 h2
    have hIsErr : r.IsError = false := by
      simp only [Response.IsError, gt_iff_lt, decide_eq_false_iff_not, not_lt]
      omega
    simp [GoZaya.CreateLink, hexec, checkForError, hIsErr, ResponseModel.zero]

/-- C8 witness: a concrete 200 round trip through both operations. -/
theorem operations_result_xor_error_witness :
    (NewClient "https://zaya.io" []).GetLink (fun _ _ => none)
      (fun _ => (some { statusCode := 200, status := "200 OK", body := some "payload" }, none))
      {} "tok" "abc123" = (some ResponseModel.zero, none) ∧
    (NewClient "https://zaya.io" []).CreateLink (fun _ _ => none)
      (fun _ => (some { statusCode := 200, status := "200 OK", body := some "payload" }, none))
      {} "tok" { Url := "https://example.com" } = (some ResponseModel.zero, none) := by
  have H := operations_result_xor_error (NewClient "https://zaya.io" []) (fun _ _ => none)
    (fun _ => (some { statusCode := 200, status := "200 OK", body := some "payload" }, none))
    {} "tok" "abc123" { Url := "https://example.com" }
  exact ⟨H.2.2.1 _ rfl (by decide) (by decide), H.2.2.2 _ rfl (by decide) (by decide)⟩

/-- Helper: tracing injection can only change the headers of a request. -/
theorem injectTracingHeaders_headers_only (gt : Tracer) (ctx : Ctx) (req : RestyRequest) :
    ∃ h, injectTracingHeaders gt ctx req = { req with headers := h } := by
  unfold injectTracingHeaders injectWith
  cases ctx.span with
  | none => exact ⟨req.headers, rfl⟩
  | some sp =>
    cases ht : effectiveTracer ctx gt sp.context req.headers with
    | some h => exact ⟨h, by simp [ht]⟩
    | none => exact ⟨req.headers, by simp [ht]⟩

/-- C9: neither operation registers its `result` as a decoding target
(`SetResult` is never called), and on success the returned model is
exactly Go's zero value of `ResponseModel`. -/
theorem operations_zero_result (g : GoZaya) (gt : Tracer) (exec : Transport) (ctx : Ctx)
    (token id : String) (link : GenerateLinkRequest) :
    ((g.getLinkCall gt ctx token id).request.resultRegistered = false) ∧
    ((g.createLinkCall gt ctx token link).request.resultRegistered = false) ∧
    (∀ m e, g.GetLink gt exec ctx token id = (some m, e) → m = ResponseModel.zero) ∧
    (∀ m e, g.CreateLink gt exec ctx token link = (some m, e) → m = ResponseModel.zero) := by
  refine ⟨?_, ?_, ?_, ?_⟩
  · obtain ⟨h, hh⟩ := injectTracingHeaders_headers_only gt ctx
      ((({} : RestyRequest).SetContext ctx).SetError)
    simp only [RestyRequest.SetContext, RestyRequest.SetError] at hh
    simp [GoZaya.getLinkCall, GoZaya.GetRequestWithBearerAuthNoCache, GoZaya.GetRequest,
      RestyRequest.SetHeader, RestyRequest.SetAuthToken, RestyRequest.SetContext,
      RestyRequest.SetError, hh]
  · obtain ⟨h, hh⟩ := injectTracingHeaders_headers_only gt ctx
      ((({} : RestyRequest).SetContext ctx).SetError)
    simp only [RestyRequest.SetContext, RestyRequest.SetError] at hh
    simp [GoZaya.createLinkCall, GoZaya.GetRequestFormData, GoZaya.GetRequest,
      RestyRequest.SetHeader, RestyRequest.SetAuthToken, RestyRequest.SetContext,
      RestyRequest.SetError, RestyRequest.SetFormData, hh]
  · intro m e hme
    cases hc : checkForError (exec (g.getLinkCall gt ctx token id)).1
        (exec (g.getLinkCall gt ctx token id)).2 "failed to get link" with
    | some e2 => simp [GoZaya.GetLink, hc] at hme
    | none =>
      simp only [GoZaya.GetLink, hc] at hme
      simp only [Prod.mk.injEq] at hme
      cases hme.1
      rfl
  · intro m e hme
    cases hc : checkForError (exec (g.createLinkCall gt ctx token link)).1
        (exec (g.createLinkCall gt ctx token link)).2 "failed to create link" with
    | some e2 => simp [GoZaya.CreateLink, hc] at hme
    | none =>
      simp only [GoZaya.CreateLink, hc] at hme
      simp only [Prod.mk.injEq] at hme
      cases hme.1
      rfl

/-- C9 witness: the concrete 200 round trip again; the success value is
the zero `ResponseModel` and nothing was registered for decoding into
it. -/
theorem operations_zero_result_witness :
    ((NewClient "https://zaya.io" []).getLinkCall (fun _ _ => none) {} "tok" "abc123").request.resultRegistered = false ∧
    ((NewClient "https://zaya.io" []).createLinkCall (fun _ _ => none) {} "tok" { Url := "https://example.com" }).request.resultRegistered = false ∧
    ResponseModel.zero = ResponseModel.zero := by
  have H := operations_zero_result (NewClient "https://zaya.io" []) (fun _ _ => none)
    (fun _ => (some { statusCode := 200, status := "200 OK", body := some "payload" }, none))
    {} "tok" "abc123" { Url := "https://example.com" }
  exact ⟨H.1, H.2.1, H.2.2.1 ResponseModel.zero none (by decide)⟩

/-- C10: tracing injection never surfaces an error — it always returns the
request, changing at most its headers; with no span in the context the
request comes back untouched; with a span present the effective tracer is
the context's valid tracer, falling back to the process-wide default when
the context holds none or an invalid one; and when the inject call itself
fails the request proceeds unchanged, without tracing headers. -/
theorem injectTracingHeaders_best_effort (gt : Tracer) (ctx : Ctx) (req : RestyRequest) :
    (∃ h, injectTracingHeaders gt ctx req = { req with headers := h }) ∧
    (ctx.span = none → injectTracingHeaders gt ctx req = req) ∧
    (∀ sp, ctx.span = some sp →
      injectTracingHeaders gt ctx req = injectWith (effectiveTracer ctx gt) sp.context req) ∧
    ((ctx.tracerVal = .absent ∨ ctx.tracerVal = .nilTracer) → effectiveTracer ctx gt = gt) ∧
    (∀ sp, ctx.span = some sp → effectiveTracer ctx gt sp.context req.headers = none →
      injectTracingHeaders gt ctx req = req) := by
  refine ⟨injectTracingHeaders_headers_only gt ctx req, ?_, ?_, ?_, ?_⟩
  · intro hs
    simp [injectTracingHeaders, hs]
  · intro sp hs
    simp [injectTracingHeaders, hs]
  · intro hv
    cases hv with
    | inl h => simp [effectiveTracer, h]
    | inr h => simp [effectiveTracer, h]
  · intro sp hs hfail
    simp [injectTracingHeaders, hs, injectWith, hfail]

/-- C10 witness: the three behaviours on concrete contexts — no span, a
span with no usable tracer in the context (global fallback, successful
injection), and a span whose effective tracer fails to inject. -/
theorem injectTracingHeaders_best_effort_witness :
    injectTracingHeaders (fun sc h => some (("Ot-Span", toString sc.id) :: h))
      { span := none, tracerVal := .absent } {} = ({} : RestyRequest) ∧
    injectTracingHeaders (fun sc h => some (("Ot-Span", toString sc.id) :: h))
      { span := some { context := { id := 7 } }, tracerVal := .absent } {} =
      { ({} : RestyRequest) with headers := [("Ot-Span", "7")] } ∧
    injectTracingHeaders (fun _ _ => none)
      { span := some { context := { id := 7 } }, tracerVal := .absent } {} =
      ({} : RestyRequest) := by
  refine ⟨?_, ?_, ?_⟩
  · exact (injectTracingHeaders_best_effort (fun sc h => some (("Ot-Span", toString sc.id) :: h))
      { span := none, tracerVal := .absent } {}).2.1 rfl
  · exact ((injectTracingHeaders_best_effort (fun sc h => some (("Ot-Span", toString sc.id) :: h))
      { span := some { context := { id := 7 } }, tracerVal := .absent } {}).2.2.1
      { context := { id := 7 } } rfl).trans rfl
  · exact (injectTracingHeaders_best_effort (fun _ _ => none)
      { span := some { context := { id := 7 } }, tracerVal := .absent } {}).2.2.2.2
      { context := { id := 7 } } rfl rfl
